import Mathlib

/-!
Verification development for the ClientServerApp repository.

The file shallowly embeds the per-connection command loop of
`src/server.py` (`ServerApp.handle_client`), the in-memory connection
registry (`ServerApp.connected_vms`), and the durable store as consumed
through `ServerApp.add_vm_to_db` and the four list queries.

Modelling choices, all taken from the source:
  - Python `VirtualMachine` objects are mutable and aliased (the session's
    `current_vm` and the registry entry reference the same object), so
    machines live on an explicit heap (`List Machine`, addressed by index);
    the registry maps a machine id to a heap address and the session holds
    an optional heap address.
  - The durable tables `virtual_machines` and `disks` are association
    lists keyed by their primary keys; the SQL `ON CONFLICT DO UPDATE`
    upserts overwrite the row in place.  The `last_seen` timestamp column
    is real time and is not modelled.
  - One call of `step` processes one decoded input line exactly as the
    body of the `while True` loop does; `Outcome.crash` marks an uncaught
    exception (the `except Exception` at the top of the loop fires, the
    loop exits and the connection is closed without a response), and
    `cleanup` is the `finally` block.
  - `json.dumps` serialisation of list responses is abstracted to the
    serialised value itself (constructors `Reply.jsonConnected` etc.).
  - Python `int(...)` is modelled for the token shapes reachable here:
    an optional sign followed by decimal digits with single interior
    underscores; `str.split()` / `str.strip()` / `str.upper()` are
    modelled on the character list (ASCII case mapping).
-/

namespace VMServer

/-- Class `VirtualMachine` from `src/server.py` (the `writer` handle carries no
observable state and is omitted). -/
structure Machine where
  vm_id : String
  ram : Int
  cpu : Int
  disks : List (String × Int)
  authorized : Bool
deriving DecidableEq

/-- A row of the durable `virtual_machines` table (the `last_seen`
timestamp column is not modelled). -/
structure MachineRow where
  vm_id : String
  ram : Int
  cpu : Int
  authorized : Bool
deriving DecidableEq

/-- A row of the durable `disks` table. -/
structure DiskRow where
  disk_id : String
  capacity : Int
  vm_id : String
deriving DecidableEq

/-- A row produced by the `LIST_DISKS` query: `SELECT d.*, v.vm_id as
vm_associated FROM disks d LEFT JOIN virtual_machines v ON d.vm_id = v.vm_id`. -/
structure DiskJoinRow where
  disk_id : String
  capacity : Int
  vm_id : String
  vm_associated : Option String
deriving DecidableEq

/-- The durable store: the two tables created by `ServerApp.init_db`. -/
structure Store where
  virtual_machines : List MachineRow
  disks : List DiskRow
deriving DecidableEq

/-- The process-wide server state: the heap of live `VirtualMachine`
objects, `ServerApp.connected_vms` (machine id to heap address), and the
durable store. -/
structure ServerState where
  heap : List Machine
  connected_vms : List (String × Nat)
  store : Store
deriving DecidableEq

def initialState : ServerState :=
  { heap := [], connected_vms := [], store := { virtual_machines := [], disks := [] } }

/-- The configuration surface consumed by `handle_client`
(`settings.auth_password` in `src/settings.py`). -/
structure Settings where
  auth_password : String
deriving DecidableEq

/-- Defaults from `src/settings.py`. -/
def defaultSettings : Settings := { auth_password := "secret" }

/-- The command vocabulary of `src/commands.py` (`Command(StrEnum)`). -/
inductive Command where
  | AUTH | ADD_VM | LIST_CONNECTED | LIST_AUTHORIZED | LIST_ALL
  | LOGOUT | UPDATE_VM | LIST_DISKS | EXIT
deriving DecidableEq

/-- Lookup `Command(tok)`: the `StrEnum` lookup by value; a miss raises
`ValueError`, modelled as `none`. -/
def parseCommand : String → Option Command
  | "AUTH" => some Command.AUTH
  | "ADD_VM" => some Command.ADD_VM
  | "LIST_CONNECTED" => some Command.LIST_CONNECTED
  | "LIST_AUTHORIZED" => some Command.LIST_AUTHORIZED
  | "LIST_ALL" => some Command.LIST_ALL
  | "LOGOUT" => some Command.LOGOUT
  | "UPDATE_VM" => some Command.UPDATE_VM
  | "LIST_DISKS" => some Command.LIST_DISKS
  | "EXIT" => some Command.EXIT
  | _ => none

/-- Python `str.strip()`: drop leading and trailing whitespace. -/
def pyStrip (s : String) : String :=
  String.mk (((s.data.dropWhile Char.isWhitespace).reverse.dropWhile Char.isWhitespace).reverse)

/-- Helper for `pySplit`: scan the characters, accumulating the current
token reversed. -/
def splitWsAux : List Char → List Char → List String
  | [], acc => if acc = [] then [] else [String.mk acc.reverse]
  | c :: cs, acc =>
    if c.isWhitespace then
      if acc = [] then splitWsAux cs [] else String.mk acc.reverse :: splitWsAux cs []
    else splitWsAux cs (c :: acc)

/-- Python `str.split()` with no arguments: split on whitespace runs, no empty
tokens. -/
def pySplit (s : String) : List String := splitWsAux s.data []

/-- Python `str.upper()` (ASCII case mapping; the command tokens are ASCII). -/
def pyUpper (s : String) : String := String.mk (s.data.map Char.toUpper)

def digitVal (c : Char) : Nat := c.toNat - 48

/-- Continuation of `pyDigits`: after at least one digit, further digits
may be separated by single underscores (as Python `int` accepts). -/
def pyDigitsAux : List Char → Nat → Option Nat
  | [], acc => some acc
  | ['_'], _ => none
  | '_' :: c :: cs, acc =>
    if c.isDigit then pyDigitsAux cs (acc * 10 + digitVal c) else none
  | c :: cs, acc =>
    if c.isDigit then pyDigitsAux cs (acc * 10 + digitVal c) else none

/-- Parse a non-empty run of decimal digits (with Python's interior
underscores); anything else raises `ValueError`, modelled as `none`. -/
def pyDigits : List Char → Option Nat
  | [] => none
  | c :: cs => if c.isDigit then pyDigitsAux cs (digitVal c) else none

/-- Python `int(s)` on a whitespace-free token: optional sign then
decimal digits. -/
def pyInt (s : String) : Option Int :=
  match s.data with
  | '+' :: rest => (pyDigits rest).map (fun n => (n : Int))
  | '-' :: rest => (pyDigits rest).map (fun n => -(n : Int))
  | rest => (pyDigits rest).map (fun n => (n : Int))

/-- Python `disk_str.split(':', 1)` when `':' in disk_str`: the text before the
first colon and the text after it. -/
def splitFirstColon : List Char → Option (List Char × List Char)
  | [] => none
  | c :: cs =>
    if c = ':' then some ([], cs)
    else
      match splitFirstColon cs with
      | none => none
      | some (a, b) => some (c :: a, b)

/-- One iteration of the disk-token loop shared by ADD_VM and UPDATE_VM:
a token without `':'` is skipped, a non-integer capacity is skipped,
otherwise `(disk_id, capacity)` is kept. -/
def parseDiskToken (s : String) : Option (String × Int) :=
  match splitFirstColon s.data with
  | none => none
  | some (a, b) =>
    match pyInt (String.mk b) with
    | none => none
    | some capacity => some (String.mk a, capacity)

/-- The disk-token loop: well-formed tokens in order of appearance,
malformed ones silently dropped. -/
def parseDisks (toks : List String) : List (String × Int) :=
  toks.filterMap parseDiskToken

/-- Insert-or-replace by key, preserving position (Python dict
assignment / SQL upsert by primary key). -/
def upsertAssoc {β : Type} (k : String) (v : β) : List (String × β) → List (String × β)
  | [] => [(k, v)]
  | (k₂, v₂) :: rest => if k₂ = k then (k, v) :: rest else (k₂, v₂) :: upsertAssoc k v rest

/-- Python `dict.pop(k, None)`: remove the entry with key `k` (first occurrence;
dict keys are unique). -/
def popAssoc {β : Type} (k : String) : List (String × β) → List (String × β)
  | [] => []
  | (k₂, v₂) :: rest => if k₂ = k then rest else (k₂, v₂) :: popAssoc k rest

/-- Dictionary lookup by key. -/
def lookupAssoc {β : Type} (k : String) : List (String × β) → Option β
  | [] => none
  | (k₂, v₂) :: rest => if k₂ = k then some v₂ else lookupAssoc k rest

/-- SQL `INSERT INTO virtual_machines ... ON CONFLICT (vm_id) DO UPDATE SET
ram, cpu, authorized`. -/
def upsertMachineRow (r : MachineRow) : List MachineRow → List MachineRow
  | [] => [r]
  | r₂ :: rest => if r₂.vm_id = r.vm_id then r :: rest else r₂ :: upsertMachineRow r rest

/-- SQL `INSERT INTO disks ... ON CONFLICT (disk_id) DO UPDATE SET capacity,
vm_id`. -/
def upsertDiskRow (r : DiskRow) : List DiskRow → List DiskRow
  | [] => [r]
  | r₂ :: rest => if r₂.disk_id = r.disk_id then r :: rest else r₂ :: upsertDiskRow r rest

/-- Method `ServerApp.add_vm_to_db`: upsert the machine row, then upsert each of
its disks in order. -/
def add_vm_to_db (st : Store) (m : Machine) : Store :=
  { virtual_machines :=
      upsertMachineRow { vm_id := m.vm_id, ram := m.ram, cpu := m.cpu, authorized := m.authorized }
        st.virtual_machines,
    disks :=
      m.disks.foldl
        (fun ds d => upsertDiskRow { disk_id := d.1, capacity := d.2, vm_id := m.vm_id } ds)
        st.disks }

/-- Method `ServerApp.list_connected_vms`: serialise the registry's machines. -/
def list_connected_vms (g : ServerState) : List Machine :=
  g.connected_vms.filterMap (fun p => g.heap.get? p.2)

/-- Method `ServerApp.list_authorized_vms`: rows `WHERE authorized = true`. -/
def list_authorized_vms (st : Store) : List MachineRow :=
  st.virtual_machines.filter (fun r => r.authorized)

/-- Method `ServerApp.list_all_vms`: every machine row. -/
def list_all_vms (st : Store) : List MachineRow :=
  st.virtual_machines

/-- Method `ServerApp.list_all_disks`: every disk row with its left-joined
owning machine id. -/
def list_all_disks (st : Store) : List DiskJoinRow :=
  st.disks.map (fun d =>
    { disk_id := d.disk_id, capacity := d.capacity, vm_id := d.vm_id,
      vm_associated :=
        if st.virtual_machines.any (fun r => r.vm_id = d.vm_id) then some d.vm_id else none })

/-- What the handler writes back for one line (list responses carry the
value that `json.dumps` serialises). -/
inductive Reply where
  | text : String → Reply
  | jsonConnected : List Machine → Reply
  | jsonAuthorized : List MachineRow → Reply
  | jsonAll : List MachineRow → Reply
  | jsonDisks : List DiskJoinRow → Reply
deriving DecidableEq

/-- Result of processing one line: a one-line response, no response
(blank line), or an uncaught exception that exits the handler loop and
closes the connection without a response. -/
inductive Outcome where
  | reply : Reply → Outcome
  | noReply : Outcome
  | crash : Outcome
deriving DecidableEq

def unknownCommandMsg : String := "Неизвестная команда\n"
def authMissingArgsMsg : String := "Ошибка: недостаточно аргументов для AUTH\n"
def badPasswordMsg : String := "Ошибка: неверный пароль\n"
def alreadyAuthMsg : String := "Вы уже авторизованы\n"
def authSuccessMsg (vm_id : String) : String :=
  "Успешная аутентификация для VM " ++ vm_id ++ "\n"
def notAuthAddVmMsg : String :=
  "Ошибка: не выполнена аутентификация. Сначала выполните AUTH\n"
def forbiddenMsg : String :=
  "Ошибка: доступ запрещён. Вы можете управлять только своей виртуальной машиной.\n"
def addVmMissingArgsMsg : String := "Ошибка: недостаточно аргументов для ADD_VM\n"
def badNumberMsg : String := "Ошибка: неверный формат числовых параметров\n"
def addVmSuccessMsg (vm_id : String) : String :=
  "Данные для VM " ++ vm_id ++ " добавлены\n"
def notAuthMsg : String := "Ошибка: не выполнена аутентификация\n"
def updateVmMissingArgsMsg : String := "Ошибка: недостаточно аргументов для UPDATE_VM\n"
def updateVmSuccessMsg (vm_id : String) : String := "VM " ++ vm_id ++ " обновлена\n"
def logoutMsg (vm_id : String) : String := "VM " ++ vm_id ++ " вышла\n"

/-- The fresh machine bound on AUTH success:
`VirtualMachine(vm_id, ram=0, cpu=0, disks=[], writer=writer)` followed by
`current_vm.authorized = True`. -/
def authFreshMachine (vm_id : String) : Machine :=
  { vm_id := vm_id, ram := 0, cpu := 0, disks := [], authorized := true }

/-- The AUTH branch of `handle_client` (note the source order: argument
count, then password, then the already-authorized check). -/
def handleAuth (set : Settings) (g : ServerState) (cur : Option Nat) (parts : List String) :
    ServerState × Option Nat × Outcome :=
  if parts.length < 3 then (g, cur, Outcome.reply (Reply.text authMissingArgsMsg))
  else
    let vm_id := parts.getD 1 ""
    let password := parts.getD 2 ""
    if password ≠ set.auth_password then (g, cur, Outcome.reply (Reply.text badPasswordMsg))
    else if cur.isSome then (g, cur, Outcome.reply (Reply.text alreadyAuthMsg))
    else
      let m := authFreshMachine vm_id
      let addr := g.heap.length
      ({ heap := g.heap ++ [m],
         connected_vms := upsertAssoc vm_id addr g.connected_vms,
         store := add_vm_to_db g.store m },
       some addr, Outcome.reply (Reply.text (authSuccessMsg vm_id)))

/-- The ADD_VM branch of `handle_client`.  The source reads `parts[1]`
before any length check, so a single-token command raises an uncaught
`IndexError` (`Outcome.crash`).  The dangling-address arm is unreachable:
session addresses always point at an allocated machine. -/
def handleAddVm (g : ServerState) (cur : Option Nat) (parts : List String) :
    ServerState × Option Nat × Outcome :=
  match cur with
  | none => (g, none, Outcome.reply (Reply.text notAuthAddVmMsg))
  | some addr =>
    match g.heap.get? addr with
    | none => (g, some addr, Outcome.crash)
    | some m =>
      match parts.get? 1 with
      | none => (g, some addr, Outcome.crash)
      | some p1 =>
        if p1 ≠ m.vm_id then (g, some addr, Outcome.reply (Reply.text forbiddenMsg))
        else if parts.length < 4 then
          (g, some addr, Outcome.reply (Reply.text addVmMissingArgsMsg))
        else
          match pyInt (parts.getD 2 ""), pyInt (parts.getD 3 "") with
          | some ram, some cpu =>
            let m₂ : Machine :=
              { m with ram := ram, cpu := cpu, disks := parseDisks (parts.drop 4) }
            ({ g with heap := g.heap.set addr m₂, store := add_vm_to_db g.store m₂ },
             some addr, Outcome.reply (Reply.text (addVmSuccessMsg m₂.vm_id)))
          | _, _ => (g, some addr, Outcome.reply (Reply.text badNumberMsg))

/-- The UPDATE_VM branch of `handle_client`.  The source assigns
`current_vm.ram = int(parts[1])` before parsing `parts[2]`, so a cpu
parse failure leaves the freshly written ram in place. -/
def handleUpdateVm (g : ServerState) (cur : Option Nat) (parts : List String) :
    ServerState × Option Nat × Outcome :=
  match cur with
  | none => (g, none, Outcome.reply (Reply.text notAuthMsg))
  | some addr =>
    match g.heap.get? addr with
    | none => (g, some addr, Outcome.crash)
    | some m =>
      if parts.length < 3 then
        (g, some addr, Outcome.reply (Reply.text updateVmMissingArgsMsg))
      else
        match pyInt (parts.getD 1 "") with
        | none => (g, some addr, Outcome.reply (Reply.text badNumberMsg))
        | some ram =>
          let m₁ : Machine := { m with ram := ram }
          match pyInt (parts.getD 2 "") with
          | none =>
            ({ g with heap := g.heap.set addr m₁ },
             some addr, Outcome.reply (Reply.text badNumberMsg))
          | some cpu =>
            let m₂ : Machine := { m₁ with cpu := cpu }
            let disks := parseDisks (parts.drop 3)
            let m₃ : Machine := if disks.isEmpty then m₂ else { m₂ with disks := disks }
            ({ g with heap := g.heap.set addr m₃, store := add_vm_to_db g.store m₃ },
             some addr, Outcome.reply (Reply.text (updateVmSuccessMsg m₃.vm_id)))

/-- The LOGOUT branch of `handle_client` (`if current_vm:` — a
`VirtualMachine` object is always truthy). -/
def handleLogout (g : ServerState) (cur : Option Nat) :
    ServerState × Option Nat × Outcome :=
  match cur with
  | none => (g, none, Outcome.reply (Reply.text notAuthMsg))
  | some addr =>
    match g.heap.get? addr with
    | none => (g, some addr, Outcome.crash)
    | some m =>
      let m₂ : Machine := { m with authorized := false }
      ({ heap := g.heap.set addr m₂,
         connected_vms := popAssoc m₂.vm_id g.connected_vms,
         store := add_vm_to_db g.store m₂ },
       none, Outcome.reply (Reply.text (logoutMsg m₂.vm_id)))

/-- The `if command == ...` chain of `handle_client` (`Command.EXIT`
matches no branch and falls to the final `else`). -/
def dispatchCommand (set : Settings) (g : ServerState) (cur : Option Nat)
    (parts : List String) : Command → ServerState × Option Nat × Outcome
  | Command.AUTH => handleAuth set g cur parts
  | Command.ADD_VM => handleAddVm g cur parts
  | Command.UPDATE_VM => handleUpdateVm g cur parts
  | Command.LIST_CONNECTED => (g, cur, Outcome.reply (Reply.jsonConnected (list_connected_vms g)))
  | Command.LIST_AUTHORIZED =>
    (g, cur, Outcome.reply (Reply.jsonAuthorized (list_authorized_vms g.store)))
  | Command.LIST_ALL => (g, cur, Outcome.reply (Reply.jsonAll (list_all_vms g.store)))
  | Command.LIST_DISKS => (g, cur, Outcome.reply (Reply.jsonDisks (list_all_disks g.store)))
  | Command.LOGOUT => handleLogout g cur
  | Command.EXIT => (g, cur, Outcome.reply (Reply.text unknownCommandMsg))

/-- One iteration of the `while True` loop of `handle_client` on one
decoded line: strip (source local `message`), skip blanks, split (source
local `parts`), resolve the command (`ValueError` gives the
unknown-command response), dispatch. -/
def step (set : Settings) (g : ServerState) (cur : Option Nat) (data : String) :
    ServerState × Option Nat × Outcome :=
  if pyStrip data = "" then (g, cur, Outcome.noReply)
  else
    match parseCommand (pyUpper ((pySplit (pyStrip data)).headD "")) with
    | none => (g, cur, Outcome.reply (Reply.text unknownCommandMsg))
    | some c => dispatchCommand set g cur (pySplit (pyStrip data)) c

/-- The `finally` block of `handle_client`: on connection teardown, pop
the bound machine's registry entry; nothing else is touched. -/
def cleanup (g : ServerState) (cur : Option Nat) : ServerState :=
  match cur with
  | none => g
  | some addr =>
    match g.heap.get? addr with
    | none => g
    | some m => { g with connected_vms := popAssoc m.vm_id g.connected_vms }

/-- The command a raw line resolves to, if any. -/
def lineCommand (data : String) : Option Command :=
  parseCommand (pyUpper ((pySplit (pyStrip data)).headD ""))

/-- Durable `virtual_machines` lookup by primary key. -/
def lookupRow (k : String) (rows : List MachineRow) : Option MachineRow :=
  rows.find? (fun r => r.vm_id == k)

/-- Registry well-formedness: every entry's key is the id of the live
machine it references.  Holds in every reachable state (entries are only
created by AUTH as `connected_vms[vm_id] = current_vm` and ids are
immutable). -/
def registryWf (g : ServerState) : Prop :=
  ∀ p ∈ g.connected_vms, (g.heap.get? p.2).map Machine.vm_id = some p.1

/-- Registry keys are pairwise distinct (a Python dict invariant). -/
def keysNodup (g : ServerState) : Prop :=
  (g.connected_vms.map Prod.fst).Nodup

theorem strip_ne_empty_of_split {data t : String} {ts : List String}
    (h : pySplit (pyStrip data) = t :: ts) : pyStrip data ≠ "" := by
  intro he
  rw [he] at h
  exact List.noConfusion h

theorem lineCommand_eq_of_split {data t : String} {ts : List String}
    (hs : pySplit (pyStrip data) = t :: ts) :
    lineCommand data = parseCommand (pyUpper t) := by
  unfold lineCommand
  rw [hs]
  rfl

theorem lineCommand_ne_empty {data : String} {c : Command}
    (h : lineCommand data = some c) : pyStrip data ≠ "" := by
  intro he
  unfold lineCommand at h
  rw [he] at h
  exact Option.noConfusion h

theorem step_eq_dispatch (set : Settings) (g : ServerState) (cur : Option Nat)
    (data : String) (c : Command) (h : lineCommand data = some c) :
    step set g cur data = dispatchCommand set g cur (pySplit (pyStrip data)) c := by
  unfold step
  rw [if_neg (lineCommand_ne_empty h)]
  unfold lineCommand at h
  rw [h]

/-- Evaluating `handleAuth` on a three-or-more-token line, as one if-chain (the
argument-count guard discharged). -/
theorem handleAuth_parts_eq (set : Settings) (g : ServerState) (cur : Option Nat)
    (t vmId pw : String) (rest : List String) :
    handleAuth set g cur (t :: vmId :: pw :: rest) =
      if pw ≠ set.auth_password then (g, cur, Outcome.reply (Reply.text badPasswordMsg))
      else if cur.isSome then (g, cur, Outcome.reply (Reply.text alreadyAuthMsg))
      else
        ({ heap := g.heap ++ [authFreshMachine vmId],
           connected_vms := upsertAssoc vmId g.heap.length g.connected_vms,
           store := add_vm_to_db g.store (authFreshMachine vmId) },
         some g.heap.length, Outcome.reply (Reply.text (authSuccessMsg vmId))) := by
  have h3 : ¬ ((t :: vmId :: pw :: rest).length < 3) := by
    simp only [List.length_cons]
    omega
  simp only [handleAuth, if_neg h3]
  rfl

/-- A well-formed AUTH with the configured password on an unbound session
binds the fresh authorized machine, registers and upserts it. -/
theorem step_auth_success (set : Settings) (g : ServerState) (data t vmId pw : String)
    (rest : List String) (hs : pySplit (pyStrip data) = t :: vmId :: pw :: rest)
    (ht : pyUpper t = "AUTH") (hp : pw = set.auth_password) :
    step set g none data =
      ({ heap := g.heap ++ [authFreshMachine vmId],
         connected_vms := upsertAssoc vmId g.heap.length g.connected_vms,
         store := add_vm_to_db g.store (authFreshMachine vmId) },
       some g.heap.length, Outcome.reply (Reply.text (authSuccessMsg vmId))) := by
  have hc : lineCommand data = some Command.AUTH := by
    rw [lineCommand_eq_of_split hs, ht]
    decide
  rw [step_eq_dispatch set g none data _ hc, hs]
  show handleAuth set g none (t :: vmId :: pw :: rest) = _
  rw [handleAuth_parts_eq, if_neg (fun hne => hne hp)]
  rfl

/-- AUTH with a wrong password answers the bad-password error and changes
nothing, whatever the session's binding. -/
theorem step_auth_wrong_pw (set : Settings) (g : ServerState) (cur : Option Nat)
    (data t vmId pw : String) (rest : List String)
    (hs : pySplit (pyStrip data) = t :: vmId :: pw :: rest)
    (ht : pyUpper t = "AUTH") (hp : pw ≠ set.auth_password) :
    step set g cur data = (g, cur, Outcome.reply (Reply.text badPasswordMsg)) := by
  have hc : lineCommand data = some Command.AUTH := by
    rw [lineCommand_eq_of_split hs, ht]
    decide
  rw [step_eq_dispatch set g cur data _ hc, hs]
  show handleAuth set g cur (t :: vmId :: pw :: rest) = _
  rw [handleAuth_parts_eq, if_pos hp]

/-- AUTH with fewer than three tokens answers the missing-args error,
whatever the session's binding. -/
theorem step_auth_missing (set : Settings) (g : ServerState) (cur : Option Nat)
    (data t : String) (rest : List String)
    (hs : pySplit (pyStrip data) = t :: rest)
    (ht : pyUpper t = "AUTH") (hlen : rest.length < 2) :
    step set g cur data = (g, cur, Outcome.reply (Reply.text authMissingArgsMsg)) := by
  have hc : lineCommand data = some Command.AUTH := by
    rw [lineCommand_eq_of_split hs, ht]
    decide
  rw [step_eq_dispatch set g cur data _ hc, hs]
  show handleAuth set g cur (t :: rest) = _
  unfold handleAuth
  rw [if_pos (by simp only [List.length_cons]; omega)]

/-- AUTH with the correct password on a session that is already bound
answers the already-authorized notice and changes nothing. -/
theorem step_auth_already (set : Settings) (g : ServerState) (addr : Nat)
    (data t vmId pw : String) (rest : List String)
    (hs : pySplit (pyStrip data) = t :: vmId :: pw :: rest)
    (ht : pyUpper t = "AUTH") (hp : pw = set.auth_password) :
    step set g (some addr) data = (g, some addr, Outcome.reply (Reply.text alreadyAuthMsg)) := by
  have hc : lineCommand data = some Command.AUTH := by
    rw [lineCommand_eq_of_split hs, ht]
    decide
  rw [step_eq_dispatch set g (some addr) data _ hc, hs]
  show handleAuth set g (some addr) (t :: vmId :: pw :: rest) = _
  rw [handleAuth_parts_eq, if_neg (fun h => h hp)]
  rfl

/-- A well-formed ADD_VM on the bound machine replaces ram, cpu and the
whole disk list with the parsed disk tokens, and upserts. -/
theorem step_add_vm_success (set : Settings) (g : ServerState) (addr : Nat) (m : Machine)
    (data t ramTok cpuTok : String) (diskToks : List String) (ram cpu : Int)
    (hm : g.heap.get? addr = some m)
    (hs : pySplit (pyStrip data) = t :: m.vm_id :: ramTok :: cpuTok :: diskToks)
    (ht : pyUpper t = "ADD_VM")
    (hram : pyInt ramTok = some ram) (hcpu : pyInt cpuTok = some cpu) :
    step set g (some addr) data =
      ({ g with
          heap := g.heap.set addr { m with ram := ram, cpu := cpu, disks := parseDisks diskToks },
          store := add_vm_to_db g.store
            { m with ram := ram, cpu := cpu, disks := parseDisks diskToks } },
       some addr, Outcome.reply (Reply.text (addVmSuccessMsg m.vm_id))) := by
  have hc : lineCommand data = some Command.ADD_VM := by
    rw [lineCommand_eq_of_split hs, ht]
    decide
  rw [step_eq_dispatch set g (some addr) data _ hc, hs]
  show handleAddVm g (some addr) (t :: m.vm_id :: ramTok :: cpuTok :: diskToks) = _
  simp only [handleAddVm, hm, List.get?_cons_succ, List.get?_cons_zero,
    List.getD_cons_succ, List.getD_cons_zero, List.drop_succ_cons, List.drop_zero,
    List.length_cons, hram, hcpu]
  rw [if_neg (fun h => h rfl), if_neg (by omega)]

/-- A well-formed UPDATE_VM replaces ram and cpu of the bound machine,
replaces the disk list only when at least one disk token is well-formed,
and upserts. -/
theorem step_update_vm_success (set : Settings) (g : ServerState) (addr : Nat) (m : Machine)
    (data t ramTok cpuTok : String) (diskToks : List String) (ram cpu : Int)
    (hm : g.heap.get? addr = some m)
    (hs : pySplit (pyStrip data) = t :: ramTok :: cpuTok :: diskToks)
    (ht : pyUpper t = "UPDATE_VM")
    (hram : pyInt ramTok = some ram) (hcpu : pyInt cpuTok = some cpu) :
    step set g (some addr) data =
      (let ds := if (parseDisks diskToks).isEmpty then m.disks else parseDisks diskToks
       ({ g with
          heap := g.heap.set addr { m with ram := ram, cpu := cpu, disks := ds },
          store := add_vm_to_db g.store { m with ram := ram, cpu := cpu, disks := ds } },
        some addr, Outcome.reply (Reply.text (updateVmSuccessMsg m.vm_id)))) := by
  have hc : lineCommand data = some Command.UPDATE_VM := by
    rw [lineCommand_eq_of_split hs, ht]
    decide
  rw [step_eq_dispatch set g (some addr) data _ hc, hs]
  show handleUpdateVm g (some addr) (t :: ramTok :: cpuTok :: diskToks) = _
  simp only [handleUpdateVm, hm, List.getD_cons_succ, List.getD_cons_zero,
    List.drop_succ_cons, List.drop_zero, List.length_cons, hram, hcpu]
  rw [if_neg (by omega)]
  by_cases hd : (parseDisks diskToks).isEmpty
  · rw [if_pos hd, if_pos hd]
  · rw [if_neg hd, if_neg hd]

/-- C2 (corrected): with no identity bound, ADD_VM and UPDATE_VM answer
the not-authenticated error line and change nothing, while the four LIST
commands succeed with their JSON array regardless of authentication and
are also no-ops on session, registry and store state. -/
theorem c2_theorem (set : Settings) (g : ServerState) (data : String) :
    (lineCommand data = some Command.ADD_VM →
      step set g none data = (g, none, Outcome.reply (Reply.text notAuthAddVmMsg))) ∧
    (lineCommand data = some Command.UPDATE_VM →
      step set g none data = (g, none, Outcome.reply (Reply.text notAuthMsg))) ∧
    (lineCommand data = some Command.LIST_CONNECTED →
      step set g none data = (g, none, Outcome.reply (Reply.jsonConnected (list_connected_vms g)))) ∧
    (lineCommand data = some Command.LIST_AUTHORIZED →
      step set g none data =
        (g, none, Outcome.reply (Reply.jsonAuthorized (list_authorized_vms g.store)))) ∧
    (lineCommand data = some Command.LIST_ALL →
      step set g none data = (g, none, Outcome.reply (Reply.jsonAll (list_all_vms g.store)))) ∧
    (lineCommand data = some Command.LIST_DISKS →
      step set g none data = (g, none, Outcome.reply (Reply.jsonDisks (list_all_disks g.store)))) := by
  refine ⟨?_, ?_, ?_, ?_, ?_, ?_⟩ <;> intro h <;> rw [step_eq_dispatch set g none data _ h] <;> rfl

/-- Witness for C2 at concrete inputs. -/
theorem c2_witness :
    step defaultSettings initialState none "ADD_VM vm1 1 1" =
      (initialState, none, Outcome.reply (Reply.text notAuthAddVmMsg)) ∧
    step defaultSettings initialState none "LIST_ALL" =
      (initialState, none, Outcome.reply (Reply.jsonAll [])) := by
  constructor
  · exact (c2_theorem defaultSettings initialState "ADD_VM vm1 1 1").1 (by decide)
  · exact (c2_theorem defaultSettings initialState "LIST_ALL").2.2.2.2.1 (by decide)

/-- C2 counterexample: LIST_CONNECTED issued without authentication is
answered with the JSON listing, not a not-authenticated error line, so
the claim's universal statement fails on the LIST commands. -/
theorem c2_counterexample :
    step defaultSettings initialState none "LIST_CONNECTED" =
      (initialState, none, Outcome.reply (Reply.jsonConnected [])) ∧
    Outcome.reply (Reply.jsonConnected []) ≠ Outcome.reply (Reply.text notAuthMsg) ∧
    Outcome.reply (Reply.jsonConnected []) ≠ Outcome.reply (Reply.text notAuthAddVmMsg) :=
  ⟨by decide, by decide, by decide⟩

/-- C1 (code-bug evidence): after `AUTH vm1 secret`, the command
`UPDATE_VM 7 xyz` (ram parses, cpu does not) is answered with the
bad-number error, yet ram := 7 has already been written into the bound
machine — a partial mutation; the durable store is left unchanged. -/
theorem c1_update_vm_mutates_ram :
    ((step defaultSettings initialState none "AUTH vm1 secret").1.heap.get? 0).map Machine.ram
        = some 0 ∧
    (step defaultSettings (step defaultSettings initialState none "AUTH vm1 secret").1
        (some 0) "UPDATE_VM 7 xyz").2.2 = Outcome.reply (Reply.text badNumberMsg) ∧
    ((step defaultSettings (step defaultSettings initialState none "AUTH vm1 secret").1
        (some 0) "UPDATE_VM 7 xyz").1.heap.get? 0).map Machine.ram = some 7 ∧
    (step defaultSettings (step defaultSettings initialState none "AUTH vm1 secret").1
        (some 0) "UPDATE_VM 7 xyz").1.store =
      (step defaultSettings initialState none "AUTH vm1 secret").1.store :=
  ⟨by decide, by decide, by decide, by decide⟩

/-- C3 counterexample: on an authenticated session the bare single-token
`ADD_VM` does not produce the missing-args response — `parts[1]` raises
an uncaught `IndexError`, the handler loop exits and the connection is
closed without a response. -/
theorem c3_counterexample :
    (step defaultSettings (step defaultSettings initialState none "AUTH vm1 secret").1
        (some 0) "ADD_VM").2.2 = Outcome.crash ∧
    Outcome.crash ≠ Outcome.reply (Reply.text addVmMissingArgsMsg) :=
  ⟨by decide, by decide⟩

/-- C4 counterexample: after `AUTH vm1 secret` followed by a connection
loss without LOGOUT, the registry entry is gone but the durable row still
has authorized = true, so `vm1` still appears in LIST_AUTHORIZED. -/
theorem c4_counterexample :
    lookupAssoc "vm1"
        (cleanup (step defaultSettings initialState none "AUTH vm1 secret").1
          (some 0)).connected_vms = none ∧
    list_authorized_vms
        (cleanup (step defaultSettings initialState none "AUTH vm1 secret").1
          (some 0)).store =
      [{ vm_id := "vm1", ram := 0, cpu := 0, authorized := true }] :=
  ⟨by decide, by decide⟩

/-- C10 (confirmed): on an authenticated session, ADD_VM evaluates the
cross-machine ownership check on token 1 before the argument-count
check: whenever the second token differs from the bound machine's id —
with any number of further tokens, in particular fewer than four in
total — the reply is the forbidden error and nothing is mutated. -/
theorem c10_theorem (set : Settings) (g : ServerState) (addr : Nat) (m : Machine)
    (data t p1 : String) (rest : List String)
    (hm : g.heap.get? addr = some m)
    (hs : pySplit (pyStrip data) = t :: p1 :: rest)
    (ht : pyUpper t = "ADD_VM")
    (hne : p1 ≠ m.vm_id) :
    step set g (some addr) data = (g, some addr, Outcome.reply (Reply.text forbiddenMsg)) := by
  have hc : lineCommand data = some Command.ADD_VM := by
    rw [lineCommand_eq_of_split hs, ht]
    decide
  rw [step_eq_dispatch set g (some addr) data _ hc, hs]
  show handleAddVm g (some addr) (t :: p1 :: rest) = _
  simp only [handleAddVm, hm, List.get?_cons_succ, List.get?_cons_zero]
  rw [if_pos hne]

/-- Witness for C10: a two-token ADD_VM naming another machine is
answered with the forbidden error, not the missing-args error. -/
theorem c10_witness :
    step defaultSettings (step defaultSettings initialState none "AUTH vm1 secret").1
        (some 0) "ADD_VM vm2" =
      ((step defaultSettings initialState none "AUTH vm1 secret").1, some 0,
       Outcome.reply (Reply.text forbiddenMsg)) :=
  c10_theorem defaultSettings _ 0 (authFreshMachine "vm1") "ADD_VM vm2" "ADD_VM" "vm2" []
    (by decide) (by decide) (by decide) (by decide)

/-- C3 (corrected): with an identity bound, a two- or three-token ADD_VM
whose second token is the bound machine's id is answered with the
missing-args line and mutates nothing (the connection stays open), but
the bare single-token `ADD_VM` instead raises an uncaught IndexError at
`parts[1]`: the handler loop exits and the connection is closed without
any response. -/
theorem c3_theorem (set : Settings) (g : ServerState) (addr : Nat) (m : Machine)
    (hm : g.heap.get? addr = some m) :
    (∀ data t rest, pySplit (pyStrip data) = t :: m.vm_id :: rest →
      pyUpper t = "ADD_VM" → rest.length < 2 →
      step set g (some addr) data =
        (g, some addr, Outcome.reply (Reply.text addVmMissingArgsMsg))) ∧
    (∀ data t, pySplit (pyStrip data) = [t] → pyUpper t = "ADD_VM" →
      step set g (some addr) data = (g, some addr, Outcome.crash)) := by
  constructor
  · intro data t rest hs ht hlen
    have hc : lineCommand data = some Command.ADD_VM := by
      rw [lineCommand_eq_of_split hs, ht]
      decide
    rw [step_eq_dispatch set g (some addr) data _ hc, hs]
    show handleAddVm g (some addr) (t :: m.vm_id :: rest) = _
    simp only [handleAddVm, hm, List.get?_cons_succ, List.get?_cons_zero, List.length_cons]
    rw [if_neg (fun h => h rfl), if_pos (by omega)]
  · intro data t hs ht
    have hc : lineCommand data = some Command.ADD_VM := by
      rw [lineCommand_eq_of_split hs, ht]
      decide
    rw [step_eq_dispatch set g (some addr) data _ hc, hs]
    show handleAddVm g (some addr) [t] = _
    simp only [handleAddVm, hm, List.get?_cons_succ, List.get?_nil]

/-- Witness for C3: the command `ADD_VM vm1` gets the missing-args reply with no
state change; bare `add_vm` crashes the handler loop. -/
theorem c3_witness :
    step defaultSettings (step defaultSettings initialState none "AUTH vm1 secret").1
        (some 0) "ADD_VM vm1" =
      ((step defaultSettings initialState none "AUTH vm1 secret").1, some 0,
       Outcome.reply (Reply.text addVmMissingArgsMsg)) ∧
    step defaultSettings (step defaultSettings initialState none "AUTH vm1 secret").1
        (some 0) "add_vm" =
      ((step defaultSettings initialState none "AUTH vm1 secret").1, some 0, Outcome.crash) := by
  constructor
  · exact (c3_theorem defaultSettings _ 0 (authFreshMachine "vm1") (by decide)).1
      "ADD_VM vm1" "ADD_VM" [] (by decide) (by decide) (by decide)
  · exact (c3_theorem defaultSettings _ 0 (authFreshMachine "vm1") (by decide)).2
      "add_vm" "add_vm" (by decide) (by decide)

/-- C5 (confirmed): a successful ADD_VM replaces the bound machine's disk
list by exactly the well-formed `id:capacity` tokens supplied, in order
of appearance, malformed ones silently dropped (`parseDisks` is the
filter of the supplied tokens); a successful UPDATE_VM replaces the disk
list wholesale when at least one well-formed disk token is present and
leaves it untouched when none is. -/
theorem c5_theorem (set : Settings) (g : ServerState) (addr : Nat) (m : Machine)
    (hm : g.heap.get? addr = some m) :
    (∀ data t ramTok cpuTok diskToks ram cpu,
      pySplit (pyStrip data) = t :: m.vm_id :: ramTok :: cpuTok :: diskToks →
      pyUpper t = "ADD_VM" → pyInt ramTok = some ram → pyInt cpuTok = some cpu →
      step set g (some addr) data =
        ({ g with
            heap := g.heap.set addr
              { m with ram := ram, cpu := cpu, disks := parseDisks diskToks },
            store := add_vm_to_db g.store
              { m with ram := ram, cpu := cpu, disks := parseDisks diskToks } },
         some addr, Outcome.reply (Reply.text (addVmSuccessMsg m.vm_id)))) ∧
    (∀ data t ramTok cpuTok diskToks ram cpu,
      pySplit (pyStrip data) = t :: ramTok :: cpuTok :: diskToks →
      pyUpper t = "UPDATE_VM" → pyInt ramTok = some ram → pyInt cpuTok = some cpu →
      step set g (some addr) data =
        (let ds := if (parseDisks diskToks).isEmpty then m.disks else parseDisks diskToks
         ({ g with
            heap := g.heap.set addr { m with ram := ram, cpu := cpu, disks := ds },
            store := add_vm_to_db g.store { m with ram := ram, cpu := cpu, disks := ds } },
          some addr, Outcome.reply (Reply.text (updateVmSuccessMsg m.vm_id))))) := by
  constructor
  · intro data t ramTok cpuTok diskToks ram cpu hs ht hram hcpu
    exact step_add_vm_success set g addr m data t ramTok cpuTok diskToks ram cpu
      hm hs ht hram hcpu
  · intro data t ramTok cpuTok diskToks ram cpu hs ht hram hcpu
    exact step_update_vm_success set g addr m data t ramTok cpuTok diskToks ram cpu
      hm hs ht hram hcpu

/-- Witness for C5: an ADD_VM with two well-formed and two malformed disk
tokens keeps exactly the well-formed ones in order; an UPDATE_VM with no
well-formed disk token leaves the stored disk list untouched. -/
theorem c5_witness :
    step defaultSettings
        { heap := [{ vm_id := "vm1", ram := 0, cpu := 0, disks := [("d0", 5)], authorized := true }],
          connected_vms := [("vm1", 0)],
          store := { virtual_machines := [], disks := [] } }
        (some 0) "ADD_VM vm1 2048 2 d1:100 bad d2:7 e:x" =
      ({ heap :=
            [{ vm_id := "vm1", ram := 2048, cpu := 2, disks := [("d1", 100), ("d2", 7)],
               authorized := true }],
          connected_vms := [("vm1", 0)],
          store := { virtual_machines := [{ vm_id := "vm1", ram := 2048, cpu := 2, authorized := true }],
                     disks := [{ disk_id := "d1", capacity := 100, vm_id := "vm1" },
                               { disk_id := "d2", capacity := 7, vm_id := "vm1" }] } },
       some 0, Outcome.reply (Reply.text (addVmSuccessMsg "vm1"))) ∧
    step defaultSettings
        { heap := [{ vm_id := "vm1", ram := 0, cpu := 0, disks := [("d0", 5)], authorized := true }],
          connected_vms := [("vm1", 0)],
          store := { virtual_machines := [], disks := [] } }
        (some 0) "UPDATE_VM 512 1 junk" =
      ({ heap :=
            [{ vm_id := "vm1", ram := 512, cpu := 1, disks := [("d0", 5)], authorized := true }],
          connected_vms := [("vm1", 0)],
          store := { virtual_machines := [{ vm_id := "vm1", ram := 512, cpu := 1, authorized := true }],
                     disks := [{ disk_id := "d0", capacity := 5, vm_id := "vm1" }] } },
       some 0, Outcome.reply (Reply.text (updateVmSuccessMsg "vm1"))) := by
  constructor
  · have h := (c5_theorem defaultSettings
      { heap := [{ vm_id := "vm1", ram := 0, cpu := 0, disks := [("d0", 5)], authorized := true }],
        connected_vms := [("vm1", 0)],
        store := { virtual_machines := [], disks := [] } }
      0 { vm_id := "vm1", ram := 0, cpu := 0, disks := [("d0", 5)], authorized := true }
      (by decide)).1 "ADD_VM vm1 2048 2 d1:100 bad d2:7 e:x" "ADD_VM" "2048" "2"
      ["d1:100", "bad", "d2:7", "e:x"] 2048 2 (by decide) (by decide) (by decide) (by decide)
    exact h.trans (by decide)
  · have h := (c5_theorem defaultSettings
      { heap := [{ vm_id := "vm1", ram := 0, cpu := 0, disks := [("d0", 5)], authorized := true }],
        connected_vms := [("vm1", 0)],
        store := { virtual_machines := [], disks := [] } }
      0 { vm_id := "vm1", ram := 0, cpu := 0, disks := [("d0", 5)], authorized := true }
      (by decide)).2 "UPDATE_VM 512 1 junk" "UPDATE_VM" "512" "1" ["junk"] 512 1
      (by decide) (by decide) (by decide) (by decide)
    exact h.trans (by decide)

/-- C6 (corrected): an AUTH received while a machine identity is bound
never changes any state and keeps the connection open, but the response
depends on the supplied password — the password check precedes the
already-bound check, so a wrong password yields the bad-password error
and only a correct password yields the already-authenticated notice;
with fewer than three tokens the missing-args error is returned. -/
theorem c6_theorem (set : Settings) (g : ServerState) (addr : Nat) :
    (∀ data t vmId pw rest, pySplit (pyStrip data) = t :: vmId :: pw :: rest →
      pyUpper t = "AUTH" →
      step set g (some addr) data =
        (g, some addr,
         Outcome.reply (Reply.text
           (if pw ≠ set.auth_password then badPasswordMsg else alreadyAuthMsg)))) ∧
    (∀ data t rest, pySplit (pyStrip data) = t :: rest →
      pyUpper t = "AUTH" → rest.length < 2 →
      step set g (some addr) data =
        (g, some addr, Outcome.reply (Reply.text authMissingArgsMsg))) := by
  constructor
  · intro data t vmId pw rest hs ht
    by_cases hp : pw = set.auth_password
    · rw [if_neg (fun h => h hp)]
      exact step_auth_already set g addr data t vmId pw rest hs ht hp
    · rw [if_pos hp]
      exact step_auth_wrong_pw set g (some addr) data t vmId pw rest hs ht hp
  · intro data t rest hs ht hlen
    exact step_auth_missing set g (some addr) data t rest hs ht hlen

/-- Witness for C6: with `vm1` bound, a wrong-password AUTH answers the
bad-password error and a correct-password AUTH answers the
already-authorized notice; state is unchanged both times. -/
theorem c6_witness :
    step defaultSettings (step defaultSettings initialState none "AUTH vm1 secret").1
        (some 0) "AUTH vm9 bad" =
      ((step defaultSettings initialState none "AUTH vm1 secret").1, some 0,
       Outcome.reply (Reply.text badPasswordMsg)) ∧
    step defaultSettings (step defaultSettings initialState none "AUTH vm1 secret").1
        (some 0) "AUTH vm9 secret" =
      ((step defaultSettings initialState none "AUTH vm1 secret").1, some 0,
       Outcome.reply (Reply.text alreadyAuthMsg)) := by
  constructor
  · have h := (c6_theorem defaultSettings
      (step defaultSettings initialState none "AUTH vm1 secret").1 0).1
      "AUTH vm9 bad" "AUTH" "vm9" "bad" [] (by decide) (by decide)
    exact h.trans (by decide)
  · have h := (c6_theorem defaultSettings
      (step defaultSettings initialState none "AUTH vm1 secret").1 0).1
      "AUTH vm9 secret" "AUTH" "vm9" "secret" [] (by decide) (by decide)
    exact h.trans (by decide)

/-- C7 (confirmed): AUTH on an unbound session with the configured
password binds a fresh machine (ram 0, cpu 0, no disks) marked
authorized, registers it in the connection registry under its id,
upserts it to the durable store, leaves the session bound
(authenticated) and replies with the confirmation line naming the id;
with a wrong password it replies the bad-credentials error, the session
stays unauthenticated and unchanged, and any following ADD_VM is
answered with the not-authenticated error. -/
theorem c7_theorem (set : Settings) (g : ServerState) (data t vmId pw : String)
    (rest : List String)
    (hs : pySplit (pyStrip data) = t :: vmId :: pw :: rest)
    (ht : pyUpper t = "AUTH") :
    (pw = set.auth_password →
      step set g none data =
        ({ heap := g.heap ++ [authFreshMachine vmId],
           connected_vms := upsertAssoc vmId g.heap.length g.connected_vms,
           store := add_vm_to_db g.store (authFreshMachine vmId) },
         some g.heap.length, Outcome.reply (Reply.text (authSuccessMsg vmId)))) ∧
    (pw ≠ set.auth_password →
      step set g none data = (g, none, Outcome.reply (Reply.text badPasswordMsg)) ∧
      ∀ data₂, lineCommand data₂ = some Command.ADD_VM →
        step set g none data₂ = (g, none, Outcome.reply (Reply.text notAuthAddVmMsg))) := by
  constructor
  · intro hp
    exact step_auth_success set g data t vmId pw rest hs ht hp
  · intro hp
    refine ⟨step_auth_wrong_pw set g none data t vmId pw rest hs ht hp, ?_⟩
    intro data₂ h₂
    rw [step_eq_dispatch set g none data₂ _ h₂]
    rfl

/-- Witness for C7: the success and the wrong-password scenarios from the
initial state. -/
theorem c7_witness :
    step defaultSettings initialState none "AUTH vm1 secret" =
      ({ heap := [authFreshMachine "vm1"],
         connected_vms := [("vm1", 0)],
         store := { virtual_machines := [{ vm_id := "vm1", ram := 0, cpu := 0, authorized := true }],
                    disks := [] } },
       some 0, Outcome.reply (Reply.text (authSuccessMsg "vm1"))) ∧
    step defaultSettings initialState none "AUTH vm1 wrongpass" =
      (initialState, none, Outcome.reply (Reply.text badPasswordMsg)) ∧
    step defaultSettings initialState none "ADD_VM vm1 2048 2" =
      (initialState, none, Outcome.reply (Reply.text notAuthAddVmMsg)) := by
  refine ⟨?_, ?_, ?_⟩
  · have h := (c7_theorem defaultSettings initialState "AUTH vm1 secret" "AUTH" "vm1" "secret" []
      (by decide) (by decide)).1 rfl
    exact h.trans (by decide)
  · exact ((c7_theorem defaultSettings initialState "AUTH vm1 wrongpass" "AUTH" "vm1" "wrongpass" []
      (by decide) (by decide)).2 (by decide)).1
  · exact ((c7_theorem defaultSettings initialState "AUTH vm1 wrongpass" "AUTH" "vm1" "wrongpass" []
      (by decide) (by decide)).2 (by decide)).2 "ADD_VM vm1 2048 2" (by decide)

/-- C6 counterexample: with `vm1` already bound, `AUTH vm1 wrongpass` is
answered with the bad-password error, not the already-authenticated
notice — the password check precedes the already-bound check.  (State is
unchanged either way.) -/
theorem c6_counterexample :
    (step defaultSettings (step defaultSettings initialState none "AUTH vm1 secret").1
        (some 0) "AUTH vm1 wrongpass").2.2 = Outcome.reply (Reply.text badPasswordMsg) ∧
    badPasswordMsg ≠ alreadyAuthMsg ∧
    (step defaultSettings (step defaultSettings initialState none "AUTH vm1 secret").1
        (some 0) "AUTH vm1 wrongpass").1 =
      (step defaultSettings initialState none "AUTH vm1 secret").1 :=
  ⟨by decide, by decide, by decide⟩

theorem lt_length_of_get?_eq_some {α : Type} {l : List α} {n : Nat} {a : α}
    (h : l.get? n = some a) : n < l.length := by
  by_contra hge
  rw [List.get?_eq_none.mpr (Nat.le_of_not_lt hge)] at h
  exact Option.noConfusion h

theorem mem_of_mem_popAssoc {β : Type} {k : String} {l : List (String × β)} {p : String × β}
    (h : p ∈ popAssoc k l) : p ∈ l := by
  induction l with
  | nil => exact absurd h (List.not_mem_nil p)
  | cons q rest ih =>
    rcases q with ⟨k₂, v₂⟩
    by_cases hk : k₂ = k
    · rw [popAssoc, if_pos hk] at h
      exact List.mem_cons_of_mem _ h
    · rw [popAssoc, if_neg hk] at h
      rcases List.mem_cons.mp h with h | h
      · exact h ▸ List.mem_cons_self _ _
      · exact List.mem_cons_of_mem _ (ih h)

theorem popAssoc_key_ne {β : Type} {k : String} {l : List (String × β)}
    (hnd : (l.map Prod.fst).Nodup) {p : String × β} (h : p ∈ popAssoc k l) : p.1 ≠ k := by
  induction l with
  | nil => exact absurd h (List.not_mem_nil p)
  | cons q rest ih =>
    rcases q with ⟨k₂, v₂⟩
    rw [List.map_cons, List.nodup_cons] at hnd
    by_cases hk : k₂ = k
    · rw [popAssoc, if_pos hk] at h
      intro hpk
      have hmap : p.1 ∈ rest.map Prod.fst := List.mem_map_of_mem Prod.fst h
      rw [hpk, ← hk] at hmap
      exact hnd.1 hmap
    · rw [popAssoc, if_neg hk] at h
      rcases List.mem_cons.mp h with h | h
      · rw [h]
        exact hk
      · exact ih hnd.2 h

/-- If the registry's keys are the ids of the machines they reference,
popping an id removes it from the LIST_CONNECTED view entirely. -/
theorem not_mem_connected_pop (heap : List Machine) (reg : List (String × Nat))
    (k : String) (st : Store)
    (hnd : (reg.map Prod.fst).Nodup)
    (hwf : ∀ p ∈ reg, (heap.get? p.2).map Machine.vm_id = some p.1) :
    k ∉ (list_connected_vms
      { heap := heap, connected_vms := popAssoc k reg, store := st }).map Machine.vm_id := by
  intro hmem
  rw [List.mem_map] at hmem
  obtain ⟨mm, hmm, hid⟩ := hmem
  rw [list_connected_vms, List.mem_filterMap] at hmm
  obtain ⟨p, hp, hget⟩ := hmm
  have hne : p.1 ≠ k := popAssoc_key_ne hnd hp
  have h := hwf p (mem_of_mem_popAssoc hp)
  dsimp only at hget
  rw [hget, Option.map_some'] at h
  exact hne ((Option.some.inj h).symm.trans (hid ▸ rfl))

/-- Overwriting the machine at a live address with one of the same id
preserves registry well-formedness. -/
theorem registry_wf_set (g : ServerState) (addr : Nat) (m m₂ : Machine)
    (hm : g.heap.get? addr = some m) (hid : m₂.vm_id = m.vm_id)
    (hwf : registryWf g) :
    ∀ p ∈ g.connected_vms, ((g.heap.set addr m₂).get? p.2).map Machine.vm_id = some p.1 := by
  intro p hp
  have h := hwf p hp
  by_cases ha : p.2 = addr
  · rw [ha] at h ⊢
    rw [hm, Option.map_some'] at h
    rw [List.get?_set_eq_of_lt m₂ (lt_length_of_get?_eq_some hm), Option.map_some', hid]
    exact h
  · rw [List.get?_set_ne m₂ g.heap (fun he => ha he.symm)]
    exact h

theorem lookupRow_upsert_self (r : MachineRow) (rows : List MachineRow) :
    lookupRow r.vm_id (upsertMachineRow r rows) = some r := by
  induction rows with
  | nil =>
    simp only [upsertMachineRow, lookupRow, List.find?, beq_self_eq_true]
  | cons q rest ih =>
    by_cases hq : q.vm_id = r.vm_id
    · simp only [upsertMachineRow, if_pos hq, lookupRow, List.find?, beq_self_eq_true]
    · simp only [upsertMachineRow, if_neg hq, lookupRow, List.find?,
        beq_eq_false_iff_ne.mpr hq]
      exact ih

/-- C4 (corrected): the disconnect cleanup removes only the bound
machine's Connection Registry entry.  The durable store is not written,
so a machine that disconnects without LOGOUT keeps authorized = true in
its durable row and still appears in LIST_AUTHORIZED. -/
theorem c4_theorem (g : ServerState) (addr : Nat) (m : Machine)
    (hm : g.heap.get? addr = some m) :
    cleanup g (some addr) = { g with connected_vms := popAssoc m.vm_id g.connected_vms } ∧
    (cleanup g (some addr)).store = g.store ∧
    list_authorized_vms (cleanup g (some addr)).store = list_authorized_vms g.store := by
  have h : cleanup g (some addr) =
      { g with connected_vms := popAssoc m.vm_id g.connected_vms } := by
    simp only [cleanup, hm]
  exact ⟨h, by rw [h], by rw [h]⟩

/-- Witness for C4: authenticate `vm1`, drop the connection — the
registry is empty but the store still lists `vm1` as authorized. -/
theorem c4_witness :
    cleanup (step defaultSettings initialState none "AUTH vm1 secret").1 (some 0) =
      { heap := [authFreshMachine "vm1"],
        connected_vms := [],
        store := { virtual_machines := [{ vm_id := "vm1", ram := 0, cpu := 0, authorized := true }],
                   disks := [] } } := by
  have h := (c4_theorem (step defaultSettings initialState none "AUTH vm1 secret").1 0
    (authFreshMachine "vm1") (by decide)).1
  exact h.trans (by decide)

/-- C8 (confirmed): LOGOUT with a bound identity clears the machine's
authorized flag, upserts it to the durable store, removes its registry
entry and unbinds the session, so the id is gone from LIST_CONNECTED but
its durable row remains in LIST_ALL with authorized = false; LOGOUT with
no bound identity answers the not-authenticated error. -/
theorem c8_theorem (set : Settings) (g : ServerState) (data : String) :
    (∀ addr m, g.heap.get? addr = some m →
      lineCommand data = some Command.LOGOUT →
      registryWf g → keysNodup g →
      step set g (some addr) data =
        ({ heap := g.heap.set addr { m with authorized := false },
           connected_vms := popAssoc m.vm_id g.connected_vms,
           store := add_vm_to_db g.store { m with authorized := false } },
         none, Outcome.reply (Reply.text (logoutMsg m.vm_id))) ∧
      m.vm_id ∉ (list_connected_vms (step set g (some addr) data).1).map Machine.vm_id ∧
      lookupRow m.vm_id (list_all_vms (step set g (some addr) data).1.store) =
        some { vm_id := m.vm_id, ram := m.ram, cpu := m.cpu, authorized := false }) ∧
    (lineCommand data = some Command.LOGOUT →
      step set g none data = (g, none, Outcome.reply (Reply.text notAuthMsg))) := by
  constructor
  · intro addr m hm hc hwf hnd
    have hstep : step set g (some addr) data =
        ({ heap := g.heap.set addr { m with authorized := false },
           connected_vms := popAssoc m.vm_id g.connected_vms,
           store := add_vm_to_db g.store { m with authorized := false } },
         none, Outcome.reply (Reply.text (logoutMsg m.vm_id))) := by
      rw [step_eq_dispatch set g (some addr) data _ hc]
      show handleLogout g (some addr) = _
      simp only [handleLogout, hm]
    refine ⟨hstep, ?_, ?_⟩
    · rw [hstep]
      exact not_mem_connected_pop (g.heap.set addr { m with authorized := false })
        g.connected_vms m.vm_id (add_vm_to_db g.store { m with authorized := false }) hnd
        (registry_wf_set g addr m { m with authorized := false } hm rfl hwf)
    · rw [hstep]
      exact lookupRow_upsert_self
        { vm_id := m.vm_id, ram := m.ram, cpu := m.cpu, authorized := false }
        g.store.virtual_machines
  · intro hc
    rw [step_eq_dispatch set g none data _ hc]
    rfl

/-- Witness for C8: machine `vm1` authenticates then logs out — the registry is
emptied, the durable row flips to authorized = false, and a LOGOUT on a
fresh session is refused. -/
theorem c8_witness :
    step defaultSettings (step defaultSettings initialState none "AUTH vm1 secret").1
        (some 0) "LOGOUT" =
      ({ heap := [{ vm_id := "vm1", ram := 0, cpu := 0, disks := [], authorized := false }],
         connected_vms := [],
         store := { virtual_machines := [{ vm_id := "vm1", ram := 0, cpu := 0, authorized := false }],
                    disks := [] } },
       none, Outcome.reply (Reply.text (logoutMsg "vm1"))) ∧
    step defaultSettings initialState none "LOGOUT" =
      (initialState, none, Outcome.reply (Reply.text notAuthMsg)) := by
  constructor
  · have h := ((c8_theorem defaultSettings
      (step defaultSettings initialState none "AUTH vm1 secret").1 "LOGOUT").1
      0 (authFreshMachine "vm1") (by decide) (by decide)
      (by unfold registryWf; decide) (by unfold keysNodup; decide)).1
    exact h.trans (by decide)
  · exact (c8_theorem defaultSettings initialState "LOGOUT").2 (by decide)

theorem lookupAssoc_upsert_self {β : Type} (k : String) (v : β) (l : List (String × β)) :
    lookupAssoc k (upsertAssoc k v l) = some v := by
  induction l with
  | nil => simp [upsertAssoc, lookupAssoc]
  | cons q rest ih =>
    rcases q with ⟨k₂, v₂⟩
    by_cases hk : k₂ = k
    · rw [upsertAssoc, if_pos hk, lookupAssoc, if_pos rfl]
    · rw [upsertAssoc, if_neg hk, lookupAssoc, if_neg hk]
      exact ih

theorem upsertAssoc_upsertAssoc {β : Type} (k : String) (v₁ v₂ : β) (l : List (String × β)) :
    upsertAssoc k v₂ (upsertAssoc k v₁ l) = upsertAssoc k v₂ l := by
  induction l with
  | nil => simp [upsertAssoc]
  | cons q rest ih =>
    rcases q with ⟨k₂, v₃⟩
    by_cases hk : k₂ = k
    · simp [upsertAssoc, hk]
    · simp [upsertAssoc, hk, ih]

theorem mem_upsertAssoc {β : Type} {k : String} {v : β} {l : List (String × β)}
    {p : String × β} (h : p ∈ upsertAssoc k v l) : p = (k, v) ∨ p ∈ l := by
  induction l with
  | nil =>
    rw [upsertAssoc] at h
    exact Or.inl (List.mem_singleton.mp h)
  | cons q rest ih =>
    rcases q with ⟨k₂, v₂⟩
    by_cases hk : k₂ = k
    · rw [upsertAssoc, if_pos hk] at h
      rcases List.mem_cons.mp h with h | h
      · exact Or.inl h
      · exact Or.inr (List.mem_cons_of_mem _ h)
    · rw [upsertAssoc, if_neg hk] at h
      rcases List.mem_cons.mp h with h | h
      · exact Or.inr (h ▸ List.mem_cons_self _ _)
      · rcases ih h with h | h
        · exact Or.inl h
        · exact Or.inr (List.mem_cons_of_mem _ h)

theorem mem_keys_upsertAssoc {β : Type} {a k : String} {v : β} {l : List (String × β)}
    (h : a ∈ (upsertAssoc k v l).map Prod.fst) : a = k ∨ a ∈ l.map Prod.fst := by
  rw [List.mem_map] at h
  obtain ⟨p, hp, hpa⟩ := h
  rcases mem_upsertAssoc hp with h | h
  · exact Or.inl (hpa ▸ h ▸ rfl)
  · exact Or.inr (hpa ▸ List.mem_map_of_mem Prod.fst h)

theorem keys_nodup_upsertAssoc {β : Type} (k : String) (v : β) (l : List (String × β))
    (h : (l.map Prod.fst).Nodup) : ((upsertAssoc k v l).map Prod.fst).Nodup := by
  induction l with
  | nil => simp [upsertAssoc]
  | cons q rest ih =>
    rcases q with ⟨k₂, v₂⟩
    rw [List.map_cons, List.nodup_cons] at h
    by_cases hk : k₂ = k
    · rw [upsertAssoc, if_pos hk, List.map_cons, List.nodup_cons]
      exact ⟨hk ▸ h.1, h.2⟩
    · rw [upsertAssoc, if_neg hk, List.map_cons, List.nodup_cons]
      refine ⟨?_, ih h.2⟩
      intro hmem
      rcases mem_keys_upsertAssoc hmem with h₂ | h₂
      · exact hk h₂
      · exact h.1 h₂

/-- C9 (confirmed): when a second connection authenticates with an id
already held by a live first connection, the registry entry is replaced
by the second session's machine (a fresh heap cell); when the first
connection then closes, its cleanup pops the registry entry for that id
unconditionally, so the id disappears from LIST_CONNECTED even though
the second session is still connected, still bound to its live
authorized machine. -/
theorem c9_theorem (set : Settings) (g₀ : ServerState) (vmId : String)
    (dataA dataB tA tB pwA pwB : String) (restA restB : List String)
    (hA : pySplit (pyStrip dataA) = tA :: vmId :: pwA :: restA)
    (htA : pyUpper tA = "AUTH") (hpA : pwA = set.auth_password)
    (hB : pySplit (pyStrip dataB) = tB :: vmId :: pwB :: restB)
    (htB : pyUpper tB = "AUTH") (hpB : pwB = set.auth_password)
    (hwf : registryWf g₀) (hnd : keysNodup g₀) :
    (step set g₀ none dataA).2.1 = some g₀.heap.length ∧
    (step set (step set g₀ none dataA).1 none dataB).2.1 = some (g₀.heap.length + 1) ∧
    lookupAssoc vmId (step set (step set g₀ none dataA).1 none dataB).1.connected_vms =
      some (g₀.heap.length + 1) ∧
    vmId ∉ (list_connected_vms
      (cleanup (step set (step set g₀ none dataA).1 none dataB).1
        (some g₀.heap.length))).map Machine.vm_id ∧
    (cleanup (step set (step set g₀ none dataA).1 none dataB).1
        (some g₀.heap.length)).heap.get? (g₀.heap.length + 1) =
      some (authFreshMachine vmId) := by
  have h1 := step_auth_success set g₀ dataA tA vmId pwA restA hA htA hpA
  rw [h1]
  dsimp only
  have h2 := step_auth_success set
    { heap := g₀.heap ++ [authFreshMachine vmId],
      connected_vms := upsertAssoc vmId g₀.heap.length g₀.connected_vms,
      store := add_vm_to_db g₀.store (authFreshMachine vmId) }
    dataB tB vmId pwB restB hB htB hpB
  rw [h2]
  dsimp only
  have hlen : (g₀.heap ++ [authFreshMachine vmId]).length = g₀.heap.length + 1 := by
    simp
  have hget1 : ((g₀.heap ++ [authFreshMachine vmId]) ++ [authFreshMachine vmId]).get?
      g₀.heap.length = some (authFreshMachine vmId) := by
    rw [List.get?_append (by simp)]
    exact List.get?_concat_length _ _
  have hclean :
      cleanup
        { heap := (g₀.heap ++ [authFreshMachine vmId]) ++ [authFreshMachine vmId],
          connected_vms := upsertAssoc vmId (g₀.heap ++ [authFreshMachine vmId]).length
            (upsertAssoc vmId g₀.heap.length g₀.connected_vms),
          store := add_vm_to_db (add_vm_to_db g₀.store (authFreshMachine vmId))
            (authFreshMachine vmId) }
        (some g₀.heap.length) =
      { heap := (g₀.heap ++ [authFreshMachine vmId]) ++ [authFreshMachine vmId],
        connected_vms := popAssoc vmId (upsertAssoc vmId (g₀.heap ++ [authFreshMachine vmId]).length
          (upsertAssoc vmId g₀.heap.length g₀.connected_vms)),
        store := add_vm_to_db (add_vm_to_db g₀.store (authFreshMachine vmId))
          (authFreshMachine vmId) } := by
    simp only [cleanup, hget1]
    rfl
  refine ⟨rfl, by rw [hlen], ?_, ?_, ?_⟩
  · rw [upsertAssoc_upsertAssoc, lookupAssoc_upsert_self, hlen]
  · rw [hclean, upsertAssoc_upsertAssoc]
    apply not_mem_connected_pop
    · exact keys_nodup_upsertAssoc vmId (g₀.heap ++ [authFreshMachine vmId]).length
        g₀.connected_vms hnd
    · intro p hp
      rcases mem_upsertAssoc hp with hp | hp
      · subst hp
        rw [List.get?_concat_length]
        rfl
      · have h := hwf p hp
        have hlt : p.2 < g₀.heap.length := by
          by_contra hge
          rw [List.get?_eq_none.mpr (Nat.le_of_not_lt hge)] at h
          exact Option.noConfusion h
        rw [List.get?_append (by simp; omega), List.get?_append hlt]
        exact h
  · rw [hclean]
    show ((g₀.heap ++ [authFreshMachine vmId]) ++ [authFreshMachine vmId]).get?
      (g₀.heap.length + 1) = some (authFreshMachine vmId)
    rw [← hlen]
    exact List.get?_concat_length _ _

/-- Witness for C9: two sessions authenticate as `x`; after the first
session's teardown, `x` is absent from LIST_CONNECTED although the
second session's machine is live and authorized at address 1. -/
theorem c9_witness :
    (step defaultSettings initialState none "AUTH x secret").2.1 = some 0 ∧
    (step defaultSettings (step defaultSettings initialState none "AUTH x secret").1 none
        "auth x secret").2.1 = some 1 ∧
    lookupAssoc "x" (step defaultSettings (step defaultSettings initialState none
        "AUTH x secret").1 none "auth x secret").1.connected_vms = some 1 ∧
    "x" ∉ (list_connected_vms (cleanup (step defaultSettings (step defaultSettings initialState
        none "AUTH x secret").1 none "auth x secret").1 (some 0))).map Machine.vm_id ∧
    (cleanup (step defaultSettings (step defaultSettings initialState none "AUTH x secret").1
        none "auth x secret").1 (some 0)).heap.get? 1 = some (authFreshMachine "x") :=
  c9_theorem defaultSettings initialState "x" "AUTH x secret" "auth x secret" "AUTH" "auth"
    "secret" "secret" [] [] (by decide) (by decide) (by decide) (by decide) (by decide)
    (by decide) (by unfold registryWf; decide) (by unfold keysNodup; decide)

end VMServer
